import Mathlib

/-!
Shallow embedding of `a4.c`, a line-numbered mini-language interpreter.

A program is a text file; each non-blank line is `<lineNumber> <keyword> [args...]`,
whitespace separated.  The embedding models a source line as its list of tokens
(the C code tokenizes with `strtok(line, " ")` and strips a trailing newline),
and a whole program as a list of such token lists (blank lines are skipped by
the C reader before parsing).

Machine integers are modeled as unbounded `Int` (no claim under verification
concerns `int` overflow).  C behavior that is undefined — division by zero,
reads/writes past the ends of the fixed-size arrays `args[3]`,
`intNames[MAXVAR]`, `intValuesSet[MAXVAR]` — is modeled explicitly as a `UBKind`
outcome at the program point where the C code performs the unchecked operation.
Uninitialized C memory that the interpreter can observe only through benign
reads (the `args` slots of a `Command`, name slots between `intNamesLen` and
`intValuesLen`) is modeled as the empty string / `0`; no verified property
depends on the content of such a slot.
-/

/-- `#define MAXVARNAME 10` from the source. -/
def MAXVARNAME : Nat := 10

/-- `#define MAXVAR 1000` from the source. -/
def MAXVAR : Nat := 1000

/-- The 11 command kinds, mirroring the `#define` syntax flags `INT .. IF`. -/
inductive CommandType
  | INT | SET | BEGIN | END | ADD | SUB | MULT | DIV | PRINT | GOTO | IF
deriving DecidableEq, Repr

/-- The `Command` struct: a line number, a command type and up to three raw
string arguments.  The C struct leaves `args[i]` uninitialized until
`parse_arg` fills it; unfilled slots are modeled as `""`. -/
structure Command where
  line_number : Int := 0
  command_type : CommandType := CommandType.INT
  args0 : String := ""
  args1 : String := ""
  args2 : String := ""
deriving DecidableEq, Repr

/-- Kinds of undefined behavior the C source can reach. -/
inductive UBKind
  | divByZero      -- `intValues[index] /= atoi(args[1])` with a zero divisor
  | oobCommandRead -- reading `commands[i]` with `i >= commandsLen`
  | oobArgsWrite   -- writing `args[i]` with `i >= 3`
  | oobNamesWrite  -- writing `intNames[intNamesLen]` with `intNamesLen >= MAXVAR`
  | oobNamesRead   -- reading `intNames[i]` / `intValuesSet[i]` with `i >= MAXVAR`
deriving DecidableEq, Repr

/-- Fatal runtime errors, one per distinct `printf`+`return` site in
`execute_runtime`. -/
inductive RuntimeErr
  | commandNotFound (line : Int)   -- "Command at line %d not found"
  | notDefined (v : String)        -- "Variable %s is not defined" (SET)
  | notSet (v : String)            -- "Variable %s is not set"
  | invalidLineNumber (line : Int) -- "Invalid line number %d" (GOTO)
  | ifNotDefined (v : String)      -- "%s is not defined" (IF operand)
deriving DecidableEq, Repr

/-- The `Runtime` struct.  The fixed arrays `intNames[MAXVAR]`,
`intValues[MAXVAR]`, `intValuesSet[MAXVAR]` are modeled as total functions
bounded by `MAXVAR` at the access sites where the C code can run past them;
the command array is a list filled in file order (its `commandsLen` field is
the list length).  The render calls emitted by `print` are collected in
`output`, standing for the display sink. -/
structure Runtime where
  commands : List Command
  intNames : Nat → String
  intNamesLen : Nat
  intValues : Nat → Int
  intValuesSet : Nat → Nat
  intValuesLen : Nat
  pc : Int
  begin_line : Int
  end_line : Int
  begin_flag : Bool
  end_flag : Bool
  output : List (Int × Int × String)

/-- Pointwise update of a modeled `int` array. -/
def updateInt (f : Nat → Int) (i : Nat) (v : Int) : Nat → Int :=
  fun j => if j = i then v else f j

/-- Pointwise update of a modeled `int` flag array. -/
def updateNat (f : Nat → Nat) (i : Nat) (v : Nat) : Nat → Nat :=
  fun j => if j = i then v else f j

/-- Pointwise update of the modeled `char *` array of names. -/
def updateStr (f : Nat → String) (i : Nat) (v : String) : Nat → String :=
  fun j => if j = i then v else f j

/-- Value of the leading digit run of a character list, accumulator style;
stops at the first non-digit, like `atoi`. -/
def digitsValue : List Char → Int → Int
  | [], acc => acc
  | c :: rest, acc =>
    if c.isDigit then digitsValue rest (10 * acc + Int.ofNat (c.toNat - 48)) else acc

/-- C `atoi`: optional sign, then the leading digit run; `0` when the token
has no leading digits (tokens here never carry leading whitespace, since the
reader splits on spaces). -/
def atoi (s : String) : Int :=
  match s.data with
  | '-' :: rest => - digitsValue rest 0
  | '+' :: rest => digitsValue rest 0
  | cs => digitsValue cs 0

/-- `is_integer` from the source: `-1` when some character other than a
leading `-` is a non-digit, `1` when the token starts with `-`, `0`
otherwise.  (It never returns `2`, although several callers test for `2`.) -/
def is_integer (token : String) : Int :=
  match token.data with
  | '-' :: rest => if rest.all (fun c => c.isDigit) then 1 else -1
  | cs => if cs.all (fun c => c.isDigit) then 0 else -1

/-- `evaluate` from the source: comparison result as a C boolean int, `-1` for
an unrecognized operator.  (The `runtime` and `n` parameters of the C function
are unused and dropped.) -/
def evaluate (op : String) (val1 val2 : Int) : Int :=
  if op = "eq" then (if val1 = val2 then 1 else 0)
  else if op = "ne" then (if val1 = val2 then 0 else 1)
  else if op = "gt" then (if val1 > val2 then 1 else 0)
  else if op = "gte" then (if val1 ≥ val2 then 1 else 0)
  else if op = "lt" then (if val1 < val2 then 1 else 0)
  else if op = "lte" then (if val1 ≤ val2 then 1 else 0)
  else -1

/-- `determine_command_type` from the source. -/
def determine_command_type (token : String) : Option CommandType :=
  if token = "int" then some CommandType.INT
  else if token = "set" then some CommandType.SET
  else if token = "begin" then some CommandType.BEGIN
  else if token = "end" then some CommandType.END
  else if token = "add" then some CommandType.ADD
  else if token = "sub" then some CommandType.SUB
  else if token = "mult" then some CommandType.MULT
  else if token = "div" then some CommandType.DIV
  else if token = "print" then some CommandType.PRINT
  else if token = "goto" then some CommandType.GOTO
  else if token = "if" then some CommandType.IF
  else none

/-- `check_arguments` from the source: `-1` on an arity mismatch.  On a correct
arity the C function falls off its end without a `return`; the caller only
compares the result against `-1`, and that non-error path is modeled as `0`.
The `line_number` parameter (used only in the error message) is dropped. -/
def check_arguments (command_type : CommandType) (argc : Int) : Int :=
  match command_type with
  | CommandType.INT => if argc ≠ 1 then -1 else 0
  | CommandType.SET => if argc ≠ 2 then -1 else 0
  | CommandType.BEGIN => if argc ≠ 0 then -1 else 0
  | CommandType.END => if argc ≠ 0 then -1 else 0
  | CommandType.ADD => if argc ≠ 2 then -1 else 0
  | CommandType.SUB => if argc ≠ 2 then -1 else 0
  | CommandType.MULT => if argc ≠ 2 then -1 else 0
  | CommandType.DIV => if argc ≠ 2 then -1 else 0
  | CommandType.PRINT => if argc ≠ 3 then -1 else 0
  | CommandType.GOTO => if argc ≠ 1 then -1 else 0
  | CommandType.IF => if argc ≠ 3 then -1 else 0

/-- Loop of `is_defined`: scan `intNames[0..intNamesLen)` upward and return
the first index holding `arg`.  (These reads stay below `MAXVAR` in every
state the parser can produce, because the name-table append is bounds-checked
in `finishLine`; see `oobNamesWrite`.) -/
def is_defined_loop (r : Runtime) (arg : String) : Nat → Nat → Option Nat
  | _, 0 => none
  | i, fuel + 1 =>
    if r.intNames i = arg then some i else is_defined_loop r arg (i + 1) fuel

/-- `is_defined` from the source: index of `arg` in the declared-name table,
or `none` for the C `-1`. -/
def is_defined (r : Runtime) (arg : String) : Option Nat :=
  is_defined_loop r arg 0 r.intNamesLen

/-- Loop of `is_set`.  The C loop runs `i` from `0` to `intValuesLen - 1`
(the number of executed `set` commands, not the number of declared names) and
reads `intNames[i]` / `intValuesSet[i]`; past `MAXVAR` those reads leave the
fixed arrays, which is modeled as `oobNamesRead`.  When the name matches but
its set flag is `0` the C code returns `-1` immediately. -/
def is_set_loop (r : Runtime) (arg : String) : Nat → Nat → Except UBKind (Option Nat)
  | _, 0 => Except.ok none
  | i, fuel + 1 =>
    if i < MAXVAR then
      if (is_defined r (r.intNames i)).isSome then
        if r.intNames i = arg then
          (if r.intValuesSet i = 1 then Except.ok (some i) else Except.ok none)
        else is_set_loop r arg (i + 1) fuel
      else is_set_loop r arg (i + 1) fuel
    else Except.error UBKind.oobNamesRead

/-- `is_set` from the source. -/
def is_set (r : Runtime) (arg : String) : Except UBKind (Option Nat) :=
  is_set_loop r arg 0 r.intValuesLen

/-- `get_command_by_line_number`: linear scan over the command list, first
match wins. -/
def find_command_loop (line_number : Int) : List Command → Nat → Option Nat
  | [], _ => none
  | c :: rest, i =>
    if c.line_number = line_number then some i
    else find_command_loop line_number rest (i + 1)

/-- Index of the first command carrying `line_number`, or `none` for `-1`. -/
def get_command_by_line_number (r : Runtime) (line_number : Int) : Option Nat :=
  find_command_loop line_number r.commands 0

/-- Write `args[i]` of a command.  The C array has three slots; a write at
`i ≥ 3` runs past it. -/
def setArg (c : Command) (i : Nat) (v : String) : Except UBKind Command :=
  match i with
  | 0 => Except.ok {c with args0 := v}
  | 1 => Except.ok {c with args1 := v}
  | 2 => Except.ok {c with args2 := v}
  | _ + 3 => Except.error UBKind.oobArgsWrite

/-- `parse_arg`, branch for `command_type == INT` (lines 740-764): length
check against `MAXVARNAME + 1`, duplicate check, then copy the token into
`args[i]`.  The `Int` component is the C return status; validation failures
return `-1` after printing. -/
def parse_arg_int (r : Runtime) (cur : Command) (token : String) (i : Nat) :
    Except UBKind (Command × Int) :=
  if token.length > MAXVARNAME + 1 then Except.ok (cur, -1)
  else if (is_defined r token).isSome then Except.ok (cur, -1)
  else
    match setArg cur i token with
    | Except.error u => Except.error u
    | Except.ok c => Except.ok (c, 1)

/-- `parse_arg`, branch for `SET/ADD/SUB/MULT/DIV` (lines 765-815): the first
operand must be a declared variable; the second must be an integer literal or
a declared variable and is stored as the raw token; further operands fall
through and return `1` without being stored. -/
def parse_arg_setfam (r : Runtime) (cur : Command) (token : String) (i : Nat) :
    Except UBKind (Command × Int) :=
  if i = 0 then
    if token.length > MAXVARNAME + 1 then Except.ok (cur, -1)
    else if (is_defined r token).isSome = false then Except.ok (cur, -1)
    else
      match setArg cur i token with
      | Except.error u => Except.error u
      | Except.ok c => Except.ok (c, 1)
  else if i = 1 then
    if is_integer token = -1 ∧ is_defined r token = none then Except.ok (cur, -1)
    else
      match setArg cur i token with
      | Except.error u => Except.error u
      | Except.ok c => Except.ok (c, 1)
  else Except.ok (cur, 1)

/-- `parse_arg`, branch for `PRINT` (lines 816-877): the first two operands
must be declared variables; the third (the text) is copied unchecked. -/
def parse_arg_print (r : Runtime) (cur : Command) (token : String) (i : Nat) :
    Except UBKind (Command × Int) :=
  if i = 0 then
    if token.length > MAXVARNAME + 1 then Except.ok (cur, -1)
    else if (is_defined r token).isSome = false then Except.ok (cur, -1)
    else
      match setArg cur i token with
      | Except.error u => Except.error u
      | Except.ok c => Except.ok (c, 1)
  else if i = 1 then
    if token.length > MAXVARNAME + 1 then Except.ok (cur, -1)
    else if (is_defined r token).isSome = false then Except.ok (cur, -1)
    else
      match setArg cur i token with
      | Except.error u => Except.error u
      | Except.ok c => Except.ok (c, 1)
  else if i = 2 then
    match setArg cur i token with
    | Except.error u => Except.error u
    | Except.ok c => Except.ok (c, 1)
  else Except.ok (cur, 1)

/-- `parse_arg`, branch for `GOTO` (lines 878-902): the operand must pass
`is_integer` (the `== 2` test is dead, `is_integer` never returns `2`), then
it is copied into `args[i]` — unconditionally on `i`, so a fourth token would
write past the argument array. -/
def parse_arg_goto (cur : Command) (token : String) (i : Nat) :
    Except UBKind (Command × Int) :=
  if is_integer token = -1 then Except.ok (cur, -1)
  else if is_integer token = 2 then Except.ok (cur, -1)
  else
    match setArg cur i token with
    | Except.error u => Except.error u
    | Except.ok c => Except.ok (c, 1)

/-- `parse_arg`, branch for `IF` (lines 903-960): the two comparison operands
get only a length check (variable/literal resolution is deferred to
execution); the middle token must be one of the six operators. -/
def parse_arg_if (cur : Command) (token : String) (i : Nat) :
    Except UBKind (Command × Int) :=
  if i = 0 then
    if token.length > MAXVARNAME + 1 then Except.ok (cur, -1)
    else
      match setArg cur i token with
      | Except.error u => Except.error u
      | Except.ok c => Except.ok (c, 1)
  else if i = 1 then
    if token = "eq" ∨ token = "ne" ∨ token = "gt" ∨ token = "gte" ∨
        token = "lt" ∨ token = "lte" then
      match setArg cur i token with
      | Except.error u => Except.error u
      | Except.ok c => Except.ok (c, 1)
    else Except.ok (cur, -1)
  else if i = 2 then
    if token.length > MAXVARNAME + 1 then Except.ok (cur, -1)
    else
      match setArg cur i token with
      | Except.error u => Except.error u
      | Except.ok c => Except.ok (c, 1)
  else Except.ok (cur, 1)

/-- `parse_arg` from the source.  It only ever mutates `commands[n]->args`,
so it is modeled as a function of the command under construction; `r` is read
for the declared-name lookups.  `BEGIN`/`END` take no operands and fall into
the final "Invalid command" branch returning `-1`. -/
def parse_arg (r : Runtime) (cur : Command) (token : String) (i : Nat) :
    Except UBKind (Command × Int) :=
  match cur.command_type with
  | CommandType.INT => parse_arg_int r cur token i
  | CommandType.SET => parse_arg_setfam r cur token i
  | CommandType.ADD => parse_arg_setfam r cur token i
  | CommandType.SUB => parse_arg_setfam r cur token i
  | CommandType.MULT => parse_arg_setfam r cur token i
  | CommandType.DIV => parse_arg_setfam r cur token i
  | CommandType.PRINT => parse_arg_print r cur token i
  | CommandType.GOTO => parse_arg_goto cur token i
  | CommandType.IF => parse_arg_if cur token i
  | CommandType.BEGIN => Except.ok (cur, -1)
  | CommandType.END => Except.ok (cur, -1)

/-- Per-line parse errors, one per `printf`+`return -1` site that `parse_line`
itself acts on.  (The errors detected inside `parse_arg` never abort the line:
`parse_line` discards that return status.) -/
inductive LineErr
  | notAnInteger   -- first token fails is_integer
  | notPositive    -- dead branch: is_integer never returns 2
  | invalidCommand -- second token is no keyword
  | wrongArity     -- check_arguments failed
deriving DecidableEq, Repr

/-- Result of parsing one line. -/
inductive LineResult
  | ok (r : Runtime)
  | err (e : LineErr)
  | ub (u : UBKind)

/-- Bookkeeping done in `parse_line` when the command keyword is `begin` or
`end` (lines 694-704): record the line number and raise the flag.  A later
duplicate silently overwrites the earlier value, as in the source. -/
def applyBeginEnd (r : Runtime) (ct : CommandType) (line_number : Int) : Runtime :=
  if ct = CommandType.BEGIN then
    {r with begin_line := line_number, begin_flag := true}
  else if ct = CommandType.END then
    {r with end_line := line_number, end_flag := true}
  else r

/-- End of the `parse_line` token loop (lines 718-726): arity check, then the
finished command joins the command array (the source preallocates the array
and fills slot `n`; appending in file order is the same), and an `int`
command's name is appended to `intNames` — with no capacity check in the
source, so reaching `intNamesLen = MAXVAR` writes past the fixed array. -/
def finishLine (r : Runtime) (cur : Command) (i : Nat) : LineResult :=
  if check_arguments cur.command_type ((i : Int) - 2) = -1 then LineResult.err LineErr.wrongArity
  else if cur.command_type = CommandType.INT then
    if r.intNamesLen < MAXVAR then
      LineResult.ok {r with
        commands := r.commands ++ [cur],
        intNames := updateStr r.intNames r.intNamesLen cur.args0,
        intNamesLen := r.intNamesLen + 1}
    else LineResult.ub UBKind.oobNamesWrite
  else LineResult.ok {r with commands := r.commands ++ [cur]}

/-- The token loop of `parse_line` (lines 650-716).  `i` counts tokens: token
0 is the line number, token 1 the keyword, the rest are operands handed to
`parse_arg` at position `i - 2`.  The `Int` status `parse_arg` returns is
bound and discarded, exactly as the call at line 710 of the source ignores
it: operand-validation failures do not abort the line. -/
def parse_loop (r : Runtime) (cur : Command) (i : Nat) : List String → LineResult
  | [] => finishLine r cur i
  | token :: rest =>
    if i = 0 then
      if is_integer token = -1 then LineResult.err LineErr.notAnInteger
      else if is_integer token = 2 then LineResult.err LineErr.notPositive
      else parse_loop r {cur with line_number := atoi token} 1 rest
    else if i = 1 then
      match determine_command_type token with
      | none => LineResult.err LineErr.invalidCommand
      | some ct =>
        parse_loop (applyBeginEnd r ct cur.line_number) {cur with command_type := ct} 2 rest
    else
      match parse_arg r cur token (i - 2) with
      | Except.error u => LineResult.ub u
      | Except.ok (c, _status) => parse_loop r c (i + 1) rest

/-- `parse_line` from the source, on one tokenized line.  The command under
construction starts from the uninitialized-slot defaults. -/
def parse_line (r : Runtime) (tokens : List String) : LineResult :=
  parse_loop r ({} : Command) 0 tokens

/-- Whole-program construction errors. -/
inductive BuildErr
  | line (e : LineErr)
  | missingBegin -- "Error: No begin command"
  | missingEnd   -- "Error: No end command"
deriving DecidableEq, Repr

/-- Result of `build_runtime_from_file`: a runtime, a `NULL` return with its
reason, or undefined behavior reached while parsing. -/
inductive BuildResult
  | ok (r : Runtime)
  | fail (e : BuildErr)
  | ub (u : UBKind)

/-- The line loop of `build_runtime_from_file` plus its final flag checks
(lines 237-269). -/
def build_loop (r : Runtime) : List (List String) → BuildResult
  | [] =>
    if r.begin_flag = false then BuildResult.fail BuildErr.missingBegin
    else if r.end_flag = false then BuildResult.fail BuildErr.missingEnd
    else BuildResult.ok r
  | line :: rest =>
    match parse_line r line with
    | LineResult.err e => BuildResult.fail (BuildErr.line e)
    | LineResult.ub u => BuildResult.ub u
    | LineResult.ok r1 => build_loop r1 rest

/-- The freshly allocated runtime.  The source zeroes `intValuesSet` and the
two length counters explicitly; the remaining scalar fields are left to the
allocator and modeled as zero / `false` (a fresh allocation). -/
def initRuntime : Runtime where
  commands := []
  intNames := fun _ => ""
  intNamesLen := 0
  intValues := fun _ => 0
  intValuesSet := fun _ => 0
  intValuesLen := 0
  pc := 0
  begin_line := 0
  end_line := 0
  begin_flag := false
  end_flag := false
  output := []

/-- `build_runtime_from_file` on the tokenized non-blank lines of the file. -/
def build_runtime_from_file (lines : List (List String)) : BuildResult :=
  build_loop initRuntime lines

/-- Resolution of one `if` comparison operand (the duplicated blocks at lines
486-512 and 515-541): a declared-and-set variable resolves to its stored
value; otherwise the token must pass `is_integer` (else the caller raises the
"not defined" error, returned here as `none`); the negate-on-2 branch is dead
since `is_integer` never returns `2`. -/
def resolveIfOperand (r : Runtime) (token : String) : Except UBKind (Option Int) :=
  match is_set r token with
  | Except.error u => Except.error u
  | Except.ok (some index) => Except.ok (some (r.intValues index))
  | Except.ok none =>
    if is_integer token = -1 then Except.ok none
    else if is_integer token = 2 then Except.ok (some (- atoi token))
    else Except.ok (some (atoi token))

/-- Result of executing one command body: the updated runtime together with
the chosen `next_idx`, or a fatal error, or undefined behavior. -/
inductive CmdResult
  | ok (r : Runtime) (next_idx : Nat)
  | err (r : Runtime) (e : RuntimeErr)
  | ub (r : Runtime) (u : UBKind)

/-- In-place arithmetic update of `intValues[index]`.  The index comes from
`is_set`, whose loop only ever returns indices below `MAXVAR`, so this write
is inside the fixed array. -/
def arithUpdate (r : Runtime) (index : Nat) (v : Int) : Runtime :=
  {r with intValues := updateInt r.intValues index v}

/-- The `switch (command_type)` body of `execute_runtime` (lines 308-547),
acting on the current command; `next_idx` arrives as the default fallthrough
`command_id + 1`.  Notes kept from the source: the `set` index comes from
`is_defined`, which stays below `intNamesLen ≤ MAXVAR`, so its writes are in
bounds; `add/sub/mult/div` compute a `val`/`val_check` pair that the update
then ignores, applying `atoi(args[1])` directly (so a variable name as value
operand contributes `atoi(name)`, i.e. `0`); `div` divides with no zero
check — C integer division truncating toward zero is `Int.tdiv`, and a zero
divisor is undefined behavior. -/
def execCommand (r : Runtime) (cur : Command) (next_idx : Nat) : CmdResult :=
  match cur.command_type with
  | CommandType.INT => CmdResult.ok r next_idx
  | CommandType.BEGIN => CmdResult.ok r next_idx
  | CommandType.END => CmdResult.ok r next_idx
  | CommandType.SET =>
    match is_defined r cur.args0 with
    | none => CmdResult.err r (RuntimeErr.notDefined cur.args0)
    | some index =>
      CmdResult.ok {r with
        intValues := updateInt r.intValues index (atoi cur.args1),
        intValuesSet := updateNat r.intValuesSet index 1,
        intValuesLen := r.intValuesLen + 1} next_idx
  | CommandType.ADD =>
    match is_set r cur.args0 with
    | Except.error u => CmdResult.ub r u
    | Except.ok none => CmdResult.err r (RuntimeErr.notSet cur.args0)
    | Except.ok (some index) =>
      CmdResult.ok (arithUpdate r index (r.intValues index + atoi cur.args1)) next_idx
  | CommandType.SUB =>
    match is_set r cur.args0 with
    | Except.error u => CmdResult.ub r u
    | Except.ok none => CmdResult.err r (RuntimeErr.notSet cur.args0)
    | Except.ok (some index) =>
      CmdResult.ok (arithUpdate r index (r.intValues index - atoi cur.args1)) next_idx
  | CommandType.MULT =>
    match is_set r cur.args0 with
    | Except.error u => CmdResult.ub r u
    | Except.ok none => CmdResult.err r (RuntimeErr.notSet cur.args0)
    | Except.ok (some index) =>
      CmdResult.ok (arithUpdate r index (r.intValues index * atoi cur.args1)) next_idx
  | CommandType.DIV =>
    match is_set r cur.args0 with
    | Except.error u => CmdResult.ub r u
    | Except.ok none => CmdResult.err r (RuntimeErr.notSet cur.args0)
    | Except.ok (some index) =>
      if atoi cur.args1 = 0 then CmdResult.ub r UBKind.divByZero
      else
        CmdResult.ok (arithUpdate r index (Int.tdiv (r.intValues index) (atoi cur.args1))) next_idx
  | CommandType.PRINT =>
    match is_set r cur.args0 with
    | Except.error u => CmdResult.ub r u
    | Except.ok none => CmdResult.err r (RuntimeErr.notSet cur.args0)
    | Except.ok (some index1) =>
      match is_set r cur.args1 with
      | Except.error u => CmdResult.ub r u
      | Except.ok none => CmdResult.err r (RuntimeErr.notSet cur.args1)
      | Except.ok (some index2) =>
        CmdResult.ok {r with
          output := r.output ++ [(r.intValues index1, r.intValues index2, cur.args2)]} next_idx
  | CommandType.GOTO =>
    let line_number := atoi cur.args0
    if line_number < r.begin_line ∨ line_number > r.end_line then
      CmdResult.err r (RuntimeErr.invalidLineNumber line_number)
    else
      match get_command_by_line_number r line_number with
      | none => CmdResult.err r (RuntimeErr.commandNotFound line_number)
      | some id => CmdResult.ok r id
  | CommandType.IF =>
    match resolveIfOperand r cur.args0 with
    | Except.error u => CmdResult.ub r u
    | Except.ok none => CmdResult.err r (RuntimeErr.ifNotDefined cur.args0)
    | Except.ok (some val1) =>
      match resolveIfOperand r cur.args2 with
      | Except.error u => CmdResult.ub r u
      | Except.ok none => CmdResult.err r (RuntimeErr.ifNotDefined cur.args2)
      | Except.ok (some val2) =>
        if evaluate cur.args1 val1 val2 = 0 then CmdResult.ok r (next_idx + 1)
        else CmdResult.ok r next_idx

/-- Result of one iteration of the interpreter loop. -/
inductive StepResult
  | ok (r : Runtime)
  | err (r : Runtime) (e : RuntimeErr)
  | ub (r : Runtime) (u : UBKind)

/-- One iteration of the `while (pc < end_line)` body (lines 288-551): resolve
the program counter to an array index, run the command, then read
`commands[next_idx]->line_number` as the new program counter.  The source
performs that final read with no bound check, so `next_idx = commandsLen`
(the last declared command, or a false `if` one position earlier) leaves the
array — `oobCommandRead`. -/
def execStep (r : Runtime) : StepResult :=
  match get_command_by_line_number r r.pc with
  | none => StepResult.err r (RuntimeErr.commandNotFound r.pc)
  | some command_id =>
    match r.commands.get? command_id with
    | none => StepResult.ub r UBKind.oobCommandRead
    | some cur =>
      match execCommand r cur (command_id + 1) with
      | CmdResult.err r1 e => StepResult.err r1 e
      | CmdResult.ub r1 u => StepResult.ub r1 u
      | CmdResult.ok r1 next_idx =>
        match r1.commands.get? next_idx with
        | none => StepResult.ub r1 UBKind.oobCommandRead
        | some c => StepResult.ok {r1 with pc := c.line_number}

/-- How a run ends. -/
inductive Outcome
  | halted                          -- pc reached end_line: normal termination
  | runtimeError (e : RuntimeErr)   -- printf + return inside the loop
  | undefinedBehavior (u : UBKind)
  | outOfFuel                       -- the C loop can run forever; fuel ran out
deriving DecidableEq, Repr

/-- The interpreter loop, fuel-bounded; returns the final runtime and how the
run ended. -/
def execLoop : Runtime → Nat → Runtime × Outcome
  | r, 0 => (r, Outcome.outOfFuel)
  | r, fuel + 1 =>
    if r.pc < r.end_line then
      match execStep r with
      | StepResult.ok r1 => execLoop r1 fuel
      | StepResult.err r1 e => (r1, Outcome.runtimeError e)
      | StepResult.ub r1 u => (r1, Outcome.undefinedBehavior u)
    else (r, Outcome.halted)

/-- `execute_runtime` from the source: the program counter starts at
`begin_line`, then the loop runs. -/
def execute_runtime (r : Runtime) (fuel : Nat) : Runtime × Outcome :=
  execLoop {r with pc := r.begin_line} fuel

/-- Build a program and run it, reporting how the run ends (`none` when
construction already fails). -/
def runProgram (lines : List (List String)) (fuel : Nat) : Option Outcome :=
  match build_runtime_from_file lines with
  | BuildResult.ok r => some (execute_runtime r fuel).2
  | BuildResult.fail _ => none
  | BuildResult.ub _ => none

/-- Final stored value of a declared variable after building and running a
program. -/
def valueAfterRun (lines : List (List String)) (fuel : Nat) (name : String) : Option Int :=
  match build_runtime_from_file lines with
  | BuildResult.ok r =>
    match is_defined (execute_runtime r fuel).1 name with
    | some i => some ((execute_runtime r fuel).1.intValues i)
    | none => none
  | BuildResult.fail _ => none
  | BuildResult.ub _ => none

/-- Whether program construction returns a runtime at all. -/
def buildSucceeds (lines : List (List String)) : Bool :=
  match build_runtime_from_file lines with
  | BuildResult.ok _ => true
  | BuildResult.fail _ => false
  | BuildResult.ub _ => false

/-- Whether a name is in the declared-variable table of the runtime that
construction returns. -/
def declaredAfterBuild (lines : List (List String)) (name : String) : Bool :=
  match build_runtime_from_file lines with
  | BuildResult.ok r => (is_defined r name).isSome
  | BuildResult.fail _ => false
  | BuildResult.ub _ => false

/-- Sanity program (spec Scenario A): declares, sets and prints a variable. -/
def scenarioA : List (List String) :=
  [["1", "begin"], ["2", "int", "x"], ["3", "set", "x", "5"],
   ["4", "print", "x", "x", "hi"], ["5", "end"]]

/-- Scenario A builds, halts normally, and emits exactly the render call
`(5, 5, "hi")` — the embedding reproduces the interpreter on a healthy
program. -/
theorem scenarioA_runs :
    runProgram scenarioA 10 = some Outcome.halted ∧
    (match build_runtime_from_file scenarioA with
     | BuildResult.ok r => some (execute_runtime r 10).1.output
     | BuildResult.fail _ => none
     | BuildResult.ub _ => none) = some [(5, 5, "hi")] := by
  constructor
  · decide
  · rfl

/-- A program whose `div` value operand is the literal `0`. -/
def divZeroProg : List (List String) :=
  [["1", "begin"], ["2", "int", "x"], ["3", "set", "x", "5"],
   ["4", "div", "x", "0"], ["5", "end"]]

/-- C1: executing `div x 0` reaches the unguarded division
`intValues[index] /= atoi(args[1])` with a zero divisor — undefined behavior,
not a `DivisionByZero` error.  No divisor check exists in `execute_runtime`
(and no `DivisionByZero` error exists in the interpreter at all: `RuntimeErr`
enumerates every error site of the loop and has no such case). -/
theorem div_by_zero_is_undefined_behavior :
    runProgram divZeroProg 10 = some (Outcome.undefinedBehavior UBKind.divByZero) := by
  decide

/-- A program whose `set` names an undeclared variable — `parse_arg` detects
this and returns `-1`, but `parse_line` ignores that status. -/
def undefinedSetProg : List (List String) :=
  [["1", "begin"], ["2", "set", "y", "5"], ["3", "end"]]

/-- C2: an operand-validation failure does not stop program construction.
`parse_arg` rejects the undeclared `y` (status `-1`), `parse_line` discards
the status (line 710 of the source ignores the return value), construction
returns a program, and execution then starts — failing only at run time, on
the never-filled first argument slot. -/
theorem parse_error_does_not_stop_construction :
    buildSucceeds undefinedSetProg = true ∧
    runProgram undefinedSetProg 10 = some (Outcome.runtimeError (RuntimeErr.notDefined "")) := by
  constructor
  · decide
  · decide

/-- Three declared variables; only the third is ever `set`, then used. -/
def thirdVarProg : List (List String) :=
  [["1", "begin"], ["2", "int", "a"], ["3", "int", "b"], ["4", "int", "c"],
   ["5", "set", "c", "5"], ["6", "add", "c", "1"], ["7", "end"]]

/-- C3: after `set c 5` executes successfully, the very next `add c 1` fails
with the "not set" error.  `is_set` scans only `intNames[0..intValuesLen)`,
and `intValuesLen` counts executed `set` commands (here `1`), not declared
variables, so slot 2 — where `c` lives with its set flag raised — is never
examined. -/
theorem set_variable_missed_by_is_set :
    runProgram thirdVarProg 10 = some (Outcome.runtimeError (RuntimeErr.notSet "c")) := by
  decide

/-- `add x y` where both are declared and set: `x = 1`, `y = 7`. -/
def addVarProg : List (List String) :=
  [["1", "begin"], ["2", "int", "x"], ["3", "int", "y"], ["4", "set", "x", "1"],
   ["5", "set", "y", "7"], ["6", "add", "x", "y"], ["7", "end"]]

/-- C4: the arithmetic value operand is not resolved as a variable at
execution time.  `add x y` with `y = 7` leaves `x = 1 + atoi("y") = 1`, not
`8`: the update at line 363 of the source applies `atoi(args[1])` directly,
and `atoi` of a variable name is `0`. -/
theorem variable_value_operand_contributes_zero :
    valueAfterRun addVarProg 20 "x" = some 1 ∧
    runProgram addVarProg 20 = some Outcome.halted := by
  constructor
  · decide
  · decide

/-- An `int` declaration with an 11-character name. -/
def int11Prog : List (List String) :=
  [["1", "begin"], ["2", "int", "abcdefghijk"], ["3", "end"]]

/-- C8: a name of length 11 — longer than `MAXVARNAME = 10` — passes the
length check and is registered: the source tests
`strlen(token) > MAXVARNAME + 1`, rejecting only lengths above 11. -/
theorem eleven_char_name_accepted :
    ("abcdefghijk").length = MAXVARNAME + 1 ∧
    declaredAfterBuild int11Prog "abcdefghijk" = true ∧
    buildSucceeds int11Prog = true := by
  refine ⟨by decide, by decide, by decide⟩

/-- A false `if` as the second-to-last declared command: the skip lands one
past the end of the command array. -/
def ifLastProg : List (List String) :=
  [["1", "begin"], ["2", "int", "x"], ["3", "set", "x", "1"],
   ["4", "if", "x", "eq", "2"], ["5", "end"]]

/-- The `end` command declared first: executing the last declared command
(`int x`) while `pc < end_line` makes the default fallthrough index equal to
`commandsLen`. -/
def endFirstProg : List (List String) :=
  [["5", "end"], ["1", "begin"], ["2", "int", "x"]]

/-- C10: `nextIndex` is not always below `commandsLen`.  In `ifLastProg` the
false comparison bumps `nextIndex` to `5 = commandsLen`; in `endFirstProg`
the last declared command falls through to `3 = commandsLen`.  Both runs
reach the unchecked read `commands[next_idx]->line_number` (line 550 of the
source) out of bounds. -/
theorem next_index_reaches_commands_length :
    runProgram ifLastProg 10 = some (Outcome.undefinedBehavior UBKind.oobCommandRead) ∧
    runProgram endFirstProg 10 = some (Outcome.undefinedBehavior UBKind.oobCommandRead) := by
  constructor
  · decide
  · decide

/-- A successful `execStep` decomposes into a successful `execCommand` (from
the default fallthrough `command_id + 1`) followed by the in-bounds read of
`commands[next_idx]`, whose `line_number` becomes the new program counter. -/
theorem execStep_ok_shape (r r' : Runtime) (command_id : Nat) (cur : Command)
    (hfind : get_command_by_line_number r r.pc = some command_id)
    (hget : r.commands.get? command_id = some cur)
    (hok : execStep r = StepResult.ok r') :
    ∃ r2 next_idx c, execCommand r cur (command_id + 1) = CmdResult.ok r2 next_idx ∧
      r2.commands.get? next_idx = some c ∧ r' = {r2 with pc := c.line_number} := by
  unfold execStep at hok
  rw [hfind] at hok
  simp only [hget] at hok
  split at hok
  next r2 e heq => exact StepResult.noConfusion hok
  next r2 u heq => exact StepResult.noConfusion hok
  next r2 next_idx heq =>
    split at hok
    next hg => exact StepResult.noConfusion hok
    next c hg =>
      injection hok with h
      exact ⟨r2, next_idx, c, heq, hg, h.symm⟩

/-- Every command other than `goto` and `if` leaves the default fallthrough
index untouched (and never changes the command array). -/
theorem execCommand_nonbranch (r r2 : Runtime) (cur : Command) (ni ni2 : Nat)
    (hk1 : cur.command_type ≠ CommandType.GOTO)
    (hk2 : cur.command_type ≠ CommandType.IF)
    (hok : execCommand r cur ni = CmdResult.ok r2 ni2) :
    ni2 = ni ∧ r2.commands = r.commands := by
  cases hct : cur.command_type
  case GOTO => exact absurd hct hk1
  case IF => exact absurd hct hk2
  case INT =>
    simp only [execCommand, hct] at hok
    injection hok with h1 h2; exact ⟨h2.symm, by rw [← h1]⟩
  case BEGIN =>
    simp only [execCommand, hct] at hok
    injection hok with h1 h2; exact ⟨h2.symm, by rw [← h1]⟩
  case END =>
    simp only [execCommand, hct] at hok
    injection hok with h1 h2; exact ⟨h2.symm, by rw [← h1]⟩
  case SET =>
    simp only [execCommand, hct] at hok
    split at hok
    · exact CmdResult.noConfusion hok
    · injection hok with h1 h2; exact ⟨h2.symm, by rw [← h1]⟩
  case ADD =>
    simp only [execCommand, hct] at hok
    split at hok
    · exact CmdResult.noConfusion hok
    · exact CmdResult.noConfusion hok
    · injection hok with h1 h2; exact ⟨h2.symm, by rw [← h1]; rfl⟩
  case SUB =>
    simp only [execCommand, hct] at hok
    split at hok
    · exact CmdResult.noConfusion hok
    · exact CmdResult.noConfusion hok
    · injection hok with h1 h2; exact ⟨h2.symm, by rw [← h1]; rfl⟩
  case MULT =>
    simp only [execCommand, hct] at hok
    split at hok
    · exact CmdResult.noConfusion hok
    · exact CmdResult.noConfusion hok
    · injection hok with h1 h2; exact ⟨h2.symm, by rw [← h1]; rfl⟩
  case DIV =>
    simp only [execCommand, hct] at hok
    split at hok
    · exact CmdResult.noConfusion hok
    · exact CmdResult.noConfusion hok
    · split at hok
      · exact CmdResult.noConfusion hok
      · injection hok with h1 h2; exact ⟨h2.symm, by rw [← h1]; rfl⟩
  case PRINT =>
    simp only [execCommand, hct] at hok
    split at hok
    · exact CmdResult.noConfusion hok
    · exact CmdResult.noConfusion hok
    · split at hok
      · exact CmdResult.noConfusion hok
      · exact CmdResult.noConfusion hok
      · injection hok with h1 h2; exact ⟨h2.symm, by rw [← h1]⟩

/-- An `if` whose operands resolve leaves the state unchanged and bumps the
fallthrough index exactly when the comparison is false. -/
theorem execCommand_if_next (r r2 : Runtime) (cur : Command) (ni ni2 : Nat) (v1 v2 : Int)
    (hct : cur.command_type = CommandType.IF)
    (h1 : resolveIfOperand r cur.args0 = Except.ok (some v1))
    (h2 : resolveIfOperand r cur.args2 = Except.ok (some v2))
    (hok : execCommand r cur ni = CmdResult.ok r2 ni2) :
    r2 = r ∧ ni2 = (if evaluate cur.args1 v1 v2 = 0 then ni + 1 else ni) := by
  simp only [execCommand, hct, h1, h2] at hok
  by_cases hev : evaluate cur.args1 v1 v2 = 0
  · rw [if_pos hev] at hok
    injection hok with ha hb
    exact ⟨ha.symm, by rw [if_pos hev]; exact hb.symm⟩
  · rw [if_neg hev] at hok
    injection hok with ha hb
    exact ⟨ha.symm, by rw [if_neg hev]; exact hb.symm⟩

/-- C6: a successfully executed non-branching command (any kind but `goto`
and `if`) hands control to the command at array position `command_id + 1` in
file-declaration order, and the new program counter is the `line_number`
stored there — whatever the numeric ordering of the line numbers. -/
theorem fallthrough_is_declaration_order (r r' : Runtime) (command_id : Nat) (cur : Command)
    (hfind : get_command_by_line_number r r.pc = some command_id)
    (hget : r.commands.get? command_id = some cur)
    (hk1 : cur.command_type ≠ CommandType.GOTO)
    (hk2 : cur.command_type ≠ CommandType.IF)
    (hok : execStep r = StepResult.ok r') :
    ∃ c, r.commands.get? (command_id + 1) = some c ∧ r'.pc = c.line_number := by
  obtain ⟨r2, next_idx, c, hec, hg, hr⟩ := execStep_ok_shape r r' command_id cur hfind hget hok
  obtain ⟨hni, hcmds⟩ := execCommand_nonbranch r r2 cur (command_id + 1) next_idx hk1 hk2 hec
  refine ⟨c, ?_, ?_⟩
  · rw [← hcmds, ← hni]; exact hg
  · rw [hr]

/-- A program whose lines are declared out of ascending numeric order:
after `begin` (line 1) the next declared command carries line 7, while the
numerically next line is 3. -/
def oooProg : List (List String) :=
  [["1", "begin"], ["7", "int", "x"], ["3", "end"]]

/-- The runtime for `oooProg` at the start of execution. -/
def c6Start : Runtime :=
  match build_runtime_from_file oooProg with
  | BuildResult.ok r => {r with pc := r.begin_line}
  | BuildResult.fail _ => initRuntime
  | BuildResult.ub _ => initRuntime

/-- The runtime for `oooProg` after executing the `begin` command. -/
def c6Next : Runtime :=
  match execStep c6Start with
  | StepResult.ok r => r
  | StepResult.err r _ => r
  | StepResult.ub r _ => r

theorem fallthrough_is_declaration_order_witness :
    execStep c6Start = StepResult.ok c6Next ∧
    (∃ c, c6Start.commands.get? 1 = some c ∧ c6Next.pc = c.line_number) ∧
    c6Next.pc = 7 ∧ c6Start.end_line = 3 := by
  refine ⟨rfl, ?_, rfl, rfl⟩
  exact fallthrough_is_declaration_order c6Start c6Next 0
    ⟨1, CommandType.BEGIN, "", "", ""⟩ rfl rfl (by decide) (by decide) rfl

/-- C7: for a successfully executed `if` whose operands resolve, a false
comparison advances control to array position `command_id + 2` — skipping the
immediately following declared command — while a true comparison proceeds to
the default fallthrough `command_id + 1`. -/
theorem if_false_skips_one_extra (r r' : Runtime) (command_id : Nat) (cur : Command) (v1 v2 : Int)
    (hfind : get_command_by_line_number r r.pc = some command_id)
    (hget : r.commands.get? command_id = some cur)
    (hct : cur.command_type = CommandType.IF)
    (h1 : resolveIfOperand r cur.args0 = Except.ok (some v1))
    (h2 : resolveIfOperand r cur.args2 = Except.ok (some v2))
    (hok : execStep r = StepResult.ok r') :
    (evaluate cur.args1 v1 v2 = 0 →
      ∃ c, r.commands.get? (command_id + 2) = some c ∧ r'.pc = c.line_number) ∧
    (evaluate cur.args1 v1 v2 ≠ 0 →
      ∃ c, r.commands.get? (command_id + 1) = some c ∧ r'.pc = c.line_number) := by
  obtain ⟨r2, next_idx, c, hec, hg, hr⟩ := execStep_ok_shape r r' command_id cur hfind hget hok
  obtain ⟨hr2, hni⟩ := execCommand_if_next r r2 cur (command_id + 1) next_idx v1 v2 hct h1 h2 hec
  subst hr2
  constructor
  · intro hev
    rw [if_pos hev] at hni
    rw [hni] at hg
    exact ⟨c, hg, by rw [hr]⟩
  · intro hev
    rw [if_neg hev] at hni
    rw [hni] at hg
    exact ⟨c, hg, by rw [hr]⟩

/-- Project the state out of one interpreter step, whichever way it ended. -/
def stepOk (r : Runtime) : Runtime :=
  match execStep r with
  | StepResult.ok r1 => r1
  | StepResult.err r1 _ => r1
  | StepResult.ub r1 _ => r1

/-- Iterate `stepOk`. -/
def stepsOk (r : Runtime) : Nat → Runtime
  | 0 => r
  | n + 1 => stepsOk (stepOk r) n

/-- The runtime of a built program at the start of execution. -/
def startState (lines : List (List String)) : Runtime :=
  match build_runtime_from_file lines with
  | BuildResult.ok r => {r with pc := r.begin_line}
  | BuildResult.fail _ => initRuntime
  | BuildResult.ub _ => initRuntime

/-- Spec Scenario C, false side: `a` is 4, the `if a eq 3` is false, so the
`set a 9` on the following declared line must be skipped. -/
def ifFalseProg : List (List String) :=
  [["1", "begin"], ["2", "int", "a"], ["3", "set", "a", "4"],
   ["4", "if", "a", "eq", "3"], ["5", "set", "a", "9"], ["6", "end"]]

/-- Spec Scenario C, true side: `a` is 3, so the following declared line runs. -/
def ifTrueProg : List (List String) :=
  [["1", "begin"], ["2", "int", "a"], ["3", "set", "a", "3"],
   ["4", "if", "a", "eq", "3"], ["5", "set", "a", "9"], ["6", "end"]]

/-- State of `ifFalseProg` just before its `if` executes. -/
def c7FalseState : Runtime := stepsOk (startState ifFalseProg) 3

/-- State of `ifFalseProg` just after its `if` executes. -/
def c7FalseNext : Runtime := stepOk c7FalseState

/-- State of `ifTrueProg` just before its `if` executes. -/
def c7TrueState : Runtime := stepsOk (startState ifTrueProg) 3

/-- State of `ifTrueProg` just after its `if` executes. -/
def c7TrueNext : Runtime := stepOk c7TrueState

theorem if_false_skips_one_extra_witness :
    execStep c7FalseState = StepResult.ok c7FalseNext ∧
    (∃ c, c7FalseState.commands.get? 5 = some c ∧ c7FalseNext.pc = c.line_number) ∧
    c7FalseNext.pc = 6 ∧
    execStep c7TrueState = StepResult.ok c7TrueNext ∧
    (∃ c, c7TrueState.commands.get? 4 = some c ∧ c7TrueNext.pc = c.line_number) ∧
    c7TrueNext.pc = 5 := by
  refine ⟨rfl, ?_, rfl, rfl, ?_, rfl⟩
  · exact (if_false_skips_one_extra c7FalseState c7FalseNext 3
      ⟨4, CommandType.IF, "a", "eq", "3"⟩ 4 3 rfl rfl rfl rfl rfl rfl).1 (by decide)
  · exact (if_false_skips_one_extra c7TrueState c7TrueNext 3
      ⟨4, CommandType.IF, "a", "eq", "3"⟩ 3 3 rfl rfl rfl rfl rfl rfl).2 (by decide)

/-- `parse_arg` on an `int` declaration accepts any fresh name whose length
passes the (off-by-one) check and stores it as the first argument. -/
theorem parse_arg_int_accepts (r : Runtime) (cur : Command) (name : String)
    (hct : cur.command_type = CommandType.INT)
    (hlen : ¬ (name.length > MAXVARNAME + 1))
    (hdef : is_defined r name = none) :
    parse_arg r cur name 0 = Except.ok ({cur with args0 := name}, 1) := by
  unfold parse_arg
  rw [hct]
  show parse_arg_int r cur name 0 = _
  unfold parse_arg_int
  rw [if_neg hlen, hdef]
  simp [setArg, hct]

/-- Finishing an `int` line whose name table is already full writes past
`intNames` — there is no capacity branch to take instead. -/
theorem finishLine_int_past_capacity (r : Runtime) (cur : Command)
    (hct : cur.command_type = CommandType.INT)
    (hcap : MAXVAR ≤ r.intNamesLen) :
    finishLine r cur 3 = LineResult.ub UBKind.oobNamesWrite := by
  unfold finishLine
  rw [hct]
  norm_num [check_arguments]
  intro hlt
  exact absurd hlt (by omega)

/-- C9: declaring a variable when `intNamesLen` has already reached
`MAXVAR = 1000` does not fail with a capacity error — the parser has no such
check, and the line runs straight into the out-of-bounds write
`intNames[intNamesLen++]`. -/
theorem declare_past_capacity_is_oob_write (r : Runtime) (name : String)
    (hlen : ¬ (name.length > MAXVARNAME + 1))
    (hdef : is_defined r name = none)
    (hcap : MAXVAR ≤ r.intNamesLen) :
    parse_line r ["5", "int", name] = LineResult.ub UBKind.oobNamesWrite := by
  have h2 : parse_line r ["5", "int", name]
      = parse_loop r {line_number := 5, command_type := CommandType.INT} 2 [name] := rfl
  rw [h2]
  have hpa := parse_arg_int_accepts r {line_number := 5, command_type := CommandType.INT}
    name rfl hlen hdef
  show (match parse_arg r {line_number := 5, command_type := CommandType.INT} name 0 with
    | Except.error u => LineResult.ub u
    | Except.ok (c, _status) => parse_loop r c 3 []) = LineResult.ub UBKind.oobNamesWrite
  rw [hpa]
  exact finishLine_int_past_capacity r _ rfl hcap

/-- A runtime whose declared-name table is full: `MAXVAR` slots in use. -/
def fullTableState : Runtime :=
  {initRuntime with intNames := fun _ => "v", intNamesLen := MAXVAR}

set_option maxRecDepth 4000 in
theorem declare_past_capacity_is_oob_write_witness :
    parse_line fullTableState ["5", "int", "x"] = LineResult.ub UBKind.oobNamesWrite :=
  declare_past_capacity_is_oob_write fullTableState "x" (by decide) (by decide) (by decide)

/-- The command keyword a line carries, read off its second token (the token
`parse_line` hands to `determine_command_type`). -/
def lineKind (toks : List String) : Option CommandType :=
  match toks.get? 1 with
  | none => none
  | some t => determine_command_type t

theorem finishLine_flags (r : Runtime) (cur : Command) (i : Nat) (r' : Runtime)
    (hok : finishLine r cur i = LineResult.ok r') :
    r'.begin_flag = r.begin_flag ∧ r'.end_flag = r.end_flag := by
  unfold finishLine at hok
  split at hok
  · exact LineResult.noConfusion hok
  · split at hok
    · split at hok
      · injection hok with h; rw [← h]; exact ⟨rfl, rfl⟩
      · exact LineResult.noConfusion hok
    · injection hok with h; rw [← h]; exact ⟨rfl, rfl⟩

theorem applyBeginEnd_flags (r : Runtime) (ct : CommandType) (ln : Int) :
    (applyBeginEnd r ct ln).begin_flag = (if ct = CommandType.BEGIN then true else r.begin_flag) ∧
    (applyBeginEnd r ct ln).end_flag = (if ct = CommandType.END then true else r.end_flag) := by
  unfold applyBeginEnd
  by_cases h1 : ct = CommandType.BEGIN
  · subst h1; simp
  · rw [if_neg h1, if_neg h1]
    by_cases h2 : ct = CommandType.END
    · subst h2; simp
    · rw [if_neg h2, if_neg h2]
      exact ⟨rfl, rfl⟩

theorem parse_loop_flags_from2 : ∀ (toks : List String) (r : Runtime) (cur : Command)
    (i : Nat) (r' : Runtime), 2 ≤ i → parse_loop r cur i toks = LineResult.ok r' →
    r'.begin_flag = r.begin_flag ∧ r'.end_flag = r.end_flag := by
  intro toks
  induction toks with
  | nil =>
    intro r cur i r' _ hok
    exact finishLine_flags r cur i r' hok
  | cons t rest ih =>
    intro r cur i r' hi hok
    unfold parse_loop at hok
    rw [if_neg (by omega : ¬ i = 0), if_neg (by omega : ¬ i = 1)] at hok
    cases hpa : parse_arg r cur t (i - 2) with
    | error u => rw [hpa] at hok; exact LineResult.noConfusion hok
    | ok p =>
      obtain ⟨c, st⟩ := p
      rw [hpa] at hok
      exact ih r c (i + 1) r' (by omega) hok

theorem parse_loop_flags_at1 (r : Runtime) (cur : Command) (tok : String)
    (rest : List String) (r' : Runtime)
    (hok : parse_loop r cur 1 (tok :: rest) = LineResult.ok r') :
    r'.begin_flag =
      (if determine_command_type tok = some CommandType.BEGIN then true else r.begin_flag) ∧
    r'.end_flag =
      (if determine_command_type tok = some CommandType.END then true else r.end_flag) := by
  unfold parse_loop at hok
  rw [if_neg (by decide : ¬ (1 : Nat) = 0), if_pos rfl] at hok
  cases hdet : determine_command_type tok with
  | none => rw [hdet] at hok; exact LineResult.noConfusion hok
  | some ct =>
    rw [hdet] at hok
    have hflags := parse_loop_flags_from2 rest (applyBeginEnd r ct cur.line_number)
      {cur with command_type := ct} 2 r' (by omega) hok
    have happ := applyBeginEnd_flags r ct cur.line_number
    constructor
    · rw [hflags.1, happ.1]
      by_cases hct : ct = CommandType.BEGIN
      · simp [hct]
      · simp [hct]
    · rw [hflags.2, happ.2]
      by_cases hct : ct = CommandType.END
      · simp [hct]
      · simp [hct]

theorem parse_line_flags (r : Runtime) (toks : List String) (r' : Runtime)
    (hok : parse_line r toks = LineResult.ok r') :
    r'.begin_flag = (if lineKind toks = some CommandType.BEGIN then true else r.begin_flag) ∧
    r'.end_flag = (if lineKind toks = some CommandType.END then true else r.end_flag) := by
  match toks with
  | [] => exact LineResult.noConfusion hok
  | [t0] =>
    unfold parse_line parse_loop at hok
    rw [if_pos rfl] at hok
    split at hok
    · exact LineResult.noConfusion hok
    · split at hok
      · exact LineResult.noConfusion hok
      · exact LineResult.noConfusion hok
  | t0 :: t1 :: rest =>
    unfold parse_line parse_loop at hok
    rw [if_pos rfl] at hok
    split at hok
    · exact LineResult.noConfusion hok
    · split at hok
      · exact LineResult.noConfusion hok
      · have h := parse_loop_flags_at1 r _ t1 rest r' hok
        simpa [lineKind] using h

/-- A build result that came out of the final flag checks: the per-line scan
ran to completion (no line-level `ParseError`, no undefined behavior). -/
def scanCompleted (b : BuildResult) : Prop :=
  (∃ r, b = BuildResult.ok r) ∨
  b = BuildResult.fail BuildErr.missingBegin ∨ b = BuildResult.fail BuildErr.missingEnd

/-- A build result that aborted inside some line. -/
def lineFailure (b : BuildResult) : Prop :=
  (∃ e, b = BuildResult.fail (BuildErr.line e)) ∨ (∃ u, b = BuildResult.ub u)

theorem build_loop_noBegin : ∀ (lines : List (List String)) (r : Runtime),
    r.begin_flag = false → (∀ l ∈ lines, lineKind l ≠ some CommandType.BEGIN) →
    build_loop r lines = BuildResult.fail BuildErr.missingBegin ∨
      lineFailure (build_loop r lines) := by
  intro lines
  induction lines with
  | nil =>
    intro r hb _
    left
    unfold build_loop
    rw [hb]
    rfl
  | cons l ls ih =>
    intro r hb hnb
    unfold build_loop
    cases hp : parse_line r l with
    | err e => right; left; exact ⟨e, rfl⟩
    | ub u => right; right; exact ⟨u, rfl⟩
    | ok r1 =>
      have hfl := parse_line_flags r l r1 hp
      have h1 : r1.begin_flag = false := by
        rw [hfl.1, if_neg (hnb l (by simp))]
        exact hb
      exact ih r1 h1 (fun x hx => hnb x (List.mem_cons_of_mem l hx))

theorem build_loop_beginTrue_noEnd : ∀ (lines : List (List String)) (r : Runtime),
    r.begin_flag = true → r.end_flag = false →
    (∀ l ∈ lines, lineKind l ≠ some CommandType.END) →
    build_loop r lines = BuildResult.fail BuildErr.missingEnd ∨
      lineFailure (build_loop r lines) := by
  intro lines
  induction lines with
  | nil =>
    intro r hb he _
    left
    unfold build_loop
    rw [hb, he]
    rfl
  | cons l ls ih =>
    intro r hb he hne
    unfold build_loop
    cases hp : parse_line r l with
    | err e => right; left; exact ⟨e, rfl⟩
    | ub u => right; right; exact ⟨u, rfl⟩
    | ok r1 =>
      have hfl := parse_line_flags r l r1 hp
      have h1 : r1.begin_flag = true := by
        rw [hfl.1, hb]
        exact ite_id _
      have h2 : r1.end_flag = false := by
        rw [hfl.2, if_neg (hne l (by simp))]
        exact he
      exact ih r1 h1 h2 (fun x hx => hne x (List.mem_cons_of_mem l hx))

theorem build_loop_beginLine_noEnd : ∀ (lines : List (List String)) (r : Runtime),
    r.end_flag = false →
    (∃ l ∈ lines, lineKind l = some CommandType.BEGIN) →
    (∀ l ∈ lines, lineKind l ≠ some CommandType.END) →
    build_loop r lines = BuildResult.fail BuildErr.missingEnd ∨
      lineFailure (build_loop r lines) := by
  intro lines
  induction lines with
  | nil =>
    intro r _ hex _
    rcases hex with ⟨x, hx, _⟩
    exact absurd hx (by simp)
  | cons l ls ih =>
    intro r he hex hne
    unfold build_loop
    cases hp : parse_line r l with
    | err e => right; left; exact ⟨e, rfl⟩
    | ub u => right; right; exact ⟨u, rfl⟩
    | ok r1 =>
      have hfl := parse_line_flags r l r1 hp
      have h2 : r1.end_flag = false := by
        rw [hfl.2, if_neg (hne l (by simp))]
        exact he
      rcases hex with ⟨x, hx, hbx⟩
      rcases List.mem_cons.1 hx with hxl | hxls
      · have h1 : r1.begin_flag = true := by
          rw [hfl.1, if_pos (hxl ▸ hbx)]
        exact build_loop_beginTrue_noEnd ls r1 h1 h2
          (fun y hy => hne y (List.mem_cons_of_mem l hy))
      · exact ih r1 h2 ⟨x, hxls, hbx⟩ (fun y hy => hne y (List.mem_cons_of_mem l hy))

/-- C5: when the per-line scan completes, a program with no `begin` line fails
with the missing-`begin` error, and a program that has a `begin` line but no
`end` line fails with the missing-`end` error; in both cases `build_loop`
returns the failure instead of a runtime. -/
theorem missing_begin_end_fail_construction (lines : List (List String))
    (hc : scanCompleted (build_runtime_from_file lines)) :
    ((∀ l ∈ lines, lineKind l ≠ some CommandType.BEGIN) →
      build_runtime_from_file lines = BuildResult.fail BuildErr.missingBegin) ∧
    ((∃ l ∈ lines, lineKind l = some CommandType.BEGIN) →
      (∀ l ∈ lines, lineKind l ≠ some CommandType.END) →
      build_runtime_from_file lines = BuildResult.fail BuildErr.missingEnd) := by
  constructor
  · intro hnb
    rcases build_loop_noBegin lines initRuntime rfl hnb with h | h
    · exact h
    · exfalso
      rcases h with ⟨e, he⟩ | ⟨u, hu⟩
      · rcases hc with ⟨rr, hr⟩ | hr | hr <;> unfold build_runtime_from_file at hr <;>
          rw [he] at hr <;> simp at hr
      · rcases hc with ⟨rr, hr⟩ | hr | hr <;> unfold build_runtime_from_file at hr <;>
          rw [hu] at hr <;> simp at hr
  · intro hex hne
    rcases build_loop_beginLine_noEnd lines initRuntime rfl hex hne with h | h
    · exact h
    · exfalso
      rcases h with ⟨e, he⟩ | ⟨u, hu⟩
      · rcases hc with ⟨rr, hr⟩ | hr | hr <;> unfold build_runtime_from_file at hr <;>
          rw [he] at hr <;> simp at hr
      · rcases hc with ⟨rr, hr⟩ | hr | hr <;> unfold build_runtime_from_file at hr <;>
          rw [hu] at hr <;> simp at hr

/-- A program with an `end` line but no `begin` line. -/
def noBeginProg : List (List String) := [["1", "int", "x"], ["2", "end"]]

/-- A program with a `begin` line but no `end` line. -/
def noEndProg : List (List String) := [["1", "begin"], ["2", "int", "x"]]

theorem missing_begin_end_fail_construction_witness :
    build_runtime_from_file noBeginProg = BuildResult.fail BuildErr.missingBegin ∧
    build_runtime_from_file noEndProg = BuildResult.fail BuildErr.missingEnd := by
  constructor
  · exact (missing_begin_end_fail_construction noBeginProg
      (Or.inr (Or.inl rfl))).1 (by decide)
  · exact (missing_begin_end_fail_construction noEndProg
      (Or.inr (Or.inr rfl))).2 (by decide) (by decide)
